import Mathlib

/-!
Shallow embedding of the session and concurrency core of the
voice-to-text transcription service
(src/transcription_service/core/{vad,session,session_manager}.py),
together with theorems settling the specification claims about it.

Bytes are modelled as natural numbers; audio buffers as lists of bytes.
Wall-clock timestamps and float-valued durations are modelled as rationals.
The shared WebRTC VAD instance is modelled as an opaque predicate
`List Nat → Option Bool`, where `none` models the predicate raising an
exception; the ASR backend is the opaque total function
`transcribe_sync : List Nat → String` of asr_protocol.py.
-/

namespace VoiceToText

abbrev Byte := Nat
abbrev Audio := List Byte

/-! ## vad.py -/

/-- Shared VAD model instance (vad.py, class VADModel): holds the sample rate
and the underlying webrtcvad predicate.  `pred frame = none` models the
underlying predicate raising an exception on that frame. -/
structure VADModel where
  sample_rate : Nat
  pred : Audio → Option Bool

/-- VADModel.is_speech (vad.py lines 35-49): run the underlying predicate on a
single frame; if it raises, assume speech to avoid dropping audio. -/
def VADModel.is_speech (m : VADModel) (frame : Audio) : Bool :=
  (m.pred frame).getD true

/-- Per-user VAD session state (vad.py, class VADSession): shared model handle,
configured frame duration, derived frame size in bytes, raw byte buffer. -/
structure VADSession where
  model : VADModel
  frame_duration_ms : Nat
  frame_size_bytes : Nat
  buffer : Audio

/-- VADSession.__init__ (vad.py lines 63-82): validates the frame duration
(10, 20 or 30 ms; `none` models the ValueError raised otherwise) and computes
frame_size_bytes = (sample_rate * frame_duration_ms // 1000) * 2. -/
def mkVADSession (model : VADModel) (frame_duration_ms : Nat) : Option VADSession :=
  if frame_duration_ms = 10 ∨ frame_duration_ms = 20 ∨ frame_duration_ms = 30 then
    let samples_per_frame := model.sample_rate * frame_duration_ms / 1000
    some { model := model
           frame_duration_ms := frame_duration_ms
           frame_size_bytes := samples_per_frame * 2
           buffer := [] }
  else
    none

/-- VADSession.is_speech (vad.py lines 84-103): append the chunk to the buffer;
if the buffer holds fewer bytes than one frame, return true ("assume speech");
otherwise run the shared model on the most recent frame-sized suffix
(`self._buffer[-self.frame_size_bytes:]`).  Returns the verdict together with
the updated session. -/
def VADSession.is_speech (s : VADSession) (audio_chunk : Audio) : Bool × VADSession :=
  let buf := s.buffer ++ audio_chunk
  if buf.length < s.frame_size_bytes then
    (true, { s with buffer := buf })
  else
    let frame := buf.drop (buf.length - s.frame_size_bytes)
    (s.model.is_speech frame, { s with buffer := buf })

/-- VADSession.reset (vad.py lines 125-127): clear the internal buffer. -/
def VADSession.reset (s : VADSession) : VADSession :=
  { s with buffer := [] }

/-! ## config.py and models.py -/

/-- Application settings (config.py, class Settings), restricted to the fields
the session core reads; defaults as in the source. -/
structure Settings where
  sample_rate : Nat := 16000
  bytes_per_second : Nat := 32000
  vad_frame_ms : Nat := 20
  endpointing_ms : Nat := 300
  latency_ms : Nat := 50
deriving DecidableEq, Repr

/-- Shared model container (models.py, dataclass Models): the VAD model plus
the ASR backend, the latter reduced to its transcribe_sync contract
(asr_protocol.py): the text the backend returns on the calls where
transcribe_sync returns.  transcribe_sync can also raise; that error path is
embedded separately by TranscribeSync and process_chunk_asr below, and
process_chunk_asr_agrees relates the two. -/
structure Models where
  vad : VADModel
  asr : Audio → String

/-! ## session.py -/

/-- Lifecycle states (session.py, enum SessionState). -/
inductive SessionState
  | CREATED
  | ACTIVE
  | CLOSING
  | CLOSED
deriving DecidableEq, Repr

/-- Per-session metrics (session.py, dataclass SessionMetrics). -/
structure SessionMetrics where
  audio_bytes_received : Nat := 0
  audio_chunks_received : Nat := 0
  transcripts_sent : Nat := 0
  partials_sent : Nat := 0
  finals_sent : Nat := 0
  errors_sent : Nat := 0
deriving DecidableEq, Repr

/-- Result of ASR processing (session.py, dataclass TranscriptResult). -/
structure TranscriptResult where
  text : String
  is_final : Bool
  duration_ms : ℚ
deriving DecidableEq

/-- SessionClosingError (session.py): raised when audio arrives on a
closing/closed session.  This is the only exception of the pipeline apart
from the ASR backend's own; the latter is covered by ChunkException and
process_chunk_asr below. -/
inductive ChunkError
  | sessionClosing
deriving DecidableEq, Repr

/-- Per-user transcription session (session.py, class TranscriptionSession).
Timestamps are rationals (abstract wall-clock seconds). -/
structure TranscriptionSession where
  models : Models
  config : Settings
  session_id : String
  state : SessionState
  created_at : ℚ
  last_activity_at : ℚ
  metrics : SessionMetrics
  vad_session : VADSession
  speech_buffer_bytes : Nat
  silence_duration_ms : ℚ

/-- TranscriptionSession.__init__ (session.py lines 79-105): fresh CREATED
session with zeroed metrics and a fresh VAD session.  The session id is a
uuid4 in the source and is passed in here; `now` stands for
datetime.now(timezone.utc).  Returns `none` when the VADSession constructor
raises on an invalid frame duration. -/
def TranscriptionSession.init (models : Models) (config : Settings)
    (session_id : String) (now : ℚ) : Option TranscriptionSession :=
  (mkVADSession models.vad config.vad_frame_ms).map fun vs =>
    { models := models
      config := config
      session_id := session_id
      state := .CREATED
      created_at := now
      last_activity_at := now
      metrics := {}
      vad_session := vs
      speech_buffer_bytes := 0
      silence_duration_ms := 0 }

/-- TranscriptionSession._chunk_duration_ms (session.py lines 219-222):
len(audio) / (bytes_per_second / 1000). -/
def TranscriptionSession.chunk_duration_ms (s : TranscriptionSession)
    (audio : Audio) : ℚ :=
  (audio.length : ℚ) / ((s.config.bytes_per_second : ℚ) / 1000)

/-- TranscriptionSession._reset (session.py lines 224-228): zero the speech
buffer and silence counter and reset the VAD session buffer. -/
def TranscriptionSession.resetState (s : TranscriptionSession) : TranscriptionSession :=
  { s with speech_buffer_bytes := 0
           silence_duration_ms := 0
           vad_session := s.vad_session.reset }

/-- TranscriptionSession.process_chunk (session.py lines 107-177).
Raises SessionClosingError when the state is CLOSING or CLOSED; otherwise
moves CREATED to ACTIVE ("Transition from CREATED to ACTIVE on first audio"),
updates the activity timestamp and byte/chunk counters, runs the VAD gate,
and then either transcribes (speech), finalizes (silence past the
endpointing threshold) or emits an empty partial.  The simulated latency
sleep has no state effect and is omitted.  The ASR call here is that of a
returning backend; the variant with the backend's error path explicit is
process_chunk_asr below. -/
def TranscriptionSession.process_chunk (s : TranscriptionSession) (now : ℚ)
    (audio : Audio) : Except ChunkError (TranscriptionSession × TranscriptResult) :=
  if s.state = .CLOSING ∨ s.state = .CLOSED then
    .error .sessionClosing
  else
    let s := if s.state = .CREATED then { s with state := SessionState.ACTIVE } else s
    let s := { s with
      last_activity_at := now
      metrics := { s.metrics with
        audio_bytes_received := s.metrics.audio_bytes_received + audio.length
        audio_chunks_received := s.metrics.audio_chunks_received + 1 } }
    let chunk_ms := s.chunk_duration_ms audio
    let vres := s.vad_session.is_speech audio
    let s := { s with vad_session := vres.2 }
    if vres.1 then
      let s := { s with
        speech_buffer_bytes := s.speech_buffer_bytes + audio.length
        silence_duration_ms := 0 }
      let text := s.models.asr audio
      let s := { s with metrics := { s.metrics with
        transcripts_sent := s.metrics.transcripts_sent + 1
        partials_sent := s.metrics.partials_sent + 1 } }
      .ok (s, { text := text, is_final := false, duration_ms := (s.config.latency_ms : ℚ) })
    else
      let s := { s with silence_duration_ms := s.silence_duration_ms + chunk_ms }
      if (s.config.endpointing_ms : ℚ) ≤ s.silence_duration_ms then
        let s := s.resetState
        let s := { s with metrics := { s.metrics with
          transcripts_sent := s.metrics.transcripts_sent + 1
          finals_sent := s.metrics.finals_sent + 1 } }
        .ok (s, { text := "", is_final := true, duration_ms := (s.config.latency_ms : ℚ) })
      else
        let s := { s with metrics := { s.metrics with
          transcripts_sent := s.metrics.transcripts_sent + 1 } }
        .ok (s, { text := "", is_final := false, duration_ms := (s.config.latency_ms : ℚ) })

/-- TranscriptionSession.close (session.py lines 196-207): return silently when
already CLOSING or CLOSED; otherwise advance to CLOSING, reset the VAD session
and internal state, and advance to CLOSED. -/
def TranscriptionSession.close (s : TranscriptionSession) : TranscriptionSession :=
  if s.state = .CLOSING ∨ s.state = .CLOSED then
    s
  else
    let s := { s with state := SessionState.CLOSING }
    let s := { s with vad_session := s.vad_session.reset }
    let s := s.resetState
    { s with state := SessionState.CLOSED }

/-! ## Sequential runs of session operations

process_chunk calls on one session are strictly serialized (spec §5 and the
one-message-at-a-time stream adapter), so a session history is a list of
calls.  A call that raises leaves the session as it was (the source raises
before any mutation). -/

/-- Run a list of (now, audio) process_chunk calls; a raising call leaves the
session unchanged and records the error. -/
def runChunks (s : TranscriptionSession) :
    List (ℚ × Audio) → TranscriptionSession × List (Except ChunkError TranscriptResult)
  | [] => (s, [])
  | (now, audio) :: rest =>
    match s.process_chunk now audio with
    | .error e =>
      let r := runChunks s rest
      (r.1, .error e :: r.2)
    | .ok (s', res) =>
      let r := runChunks s' rest
      (r.1, .ok res :: r.2)

/-- An operation on a session: a process_chunk call or a close() call. -/
inductive SessionOp
  | chunk (now : ℚ) (audio : Audio)
  | closeOp

/-- Apply one session operation; a raising process_chunk call leaves the
session as it was. -/
def applyOp (s : TranscriptionSession) : SessionOp → TranscriptionSession
  | .chunk now audio =>
    match s.process_chunk now audio with
    | .error _ => s
    | .ok (s', _) => s'
  | .closeOp => s.close

/-- Run a list of session operations sequentially. -/
def runOps (s : TranscriptionSession) (ops : List SessionOp) : TranscriptionSession :=
  ops.foldl applyOp s

/-! ## The ASR error path

transcribe_sync can raise (spec §4.3: ASR errors propagate as
TranscribeError; nemo_asr.py raises RuntimeError when the model is not
loaded and ValueError via np.frombuffer on odd-length PCM), and session.py
calls it at line 148, after the counters at lines 133-134 are already
incremented.  The definitions below embed the same process_chunk pipeline
with that error path explicit: the backend either returns text or raises,
and — because the source mutates the session object in place — a call that
raises from the ASR keeps every mutation made before the ASR call, so the
result carries the session alongside the outcome. -/

/-- An exception raised by the ASR backend's transcribe_sync; the payload is
opaque. -/
structure TranscribeError where
  msg : String
deriving DecidableEq, Repr

/-- The transcribe_sync contract of asr_protocol.py with its error path
explicit: the backend returns text or raises a TranscribeError. -/
abbrev TranscribeSync : Type := Audio → Except TranscribeError String

/-- What a process_chunk call can raise once the ASR error path is explicit:
the SessionClosingError of the entry check, or the exception propagating from
transcribe_sync (session.py line 148). -/
inductive ChunkException
  | sessionClosing
  | transcribe (e : TranscribeError)
deriving DecidableEq, Repr

/-- TranscriptionSession.process_chunk (session.py lines 107-177) with the
ASR call's fallibility explicit; `asr` stands for
self.models.asr.transcribe_sync.  Identical to process_chunk except at the
ASR call: when the backend raises, the exception propagates and the session
keeps the activation, timestamp, counter, VAD-buffer, speech-buffer and
silence mutations already performed — so the session is returned alongside
the outcome (an Except alone could not carry the partial mutation the
source's in-place updates leave behind). -/
def TranscriptionSession.process_chunk_asr (asr : TranscribeSync)
    (s : TranscriptionSession) (now : ℚ) (audio : Audio) :
    TranscriptionSession × Except ChunkException TranscriptResult :=
  if s.state = .CLOSING ∨ s.state = .CLOSED then
    (s, .error .sessionClosing)
  else
    let s := if s.state = .CREATED then { s with state := SessionState.ACTIVE } else s
    let s := { s with
      last_activity_at := now
      metrics := { s.metrics with
        audio_bytes_received := s.metrics.audio_bytes_received + audio.length
        audio_chunks_received := s.metrics.audio_chunks_received + 1 } }
    let chunk_ms := s.chunk_duration_ms audio
    let vres := s.vad_session.is_speech audio
    let s := { s with vad_session := vres.2 }
    if vres.1 then
      let s := { s with
        speech_buffer_bytes := s.speech_buffer_bytes + audio.length
        silence_duration_ms := 0 }
      match asr audio with
      | .error e => (s, .error (.transcribe e))
      | .ok text =>
        let s := { s with metrics := { s.metrics with
          transcripts_sent := s.metrics.transcripts_sent + 1
          partials_sent := s.metrics.partials_sent + 1 } }
        (s, .ok { text := text, is_final := false, duration_ms := (s.config.latency_ms : ℚ) })
    else
      let s := { s with silence_duration_ms := s.silence_duration_ms + chunk_ms }
      if (s.config.endpointing_ms : ℚ) ≤ s.silence_duration_ms then
        let s := s.resetState
        let s := { s with metrics := { s.metrics with
          transcripts_sent := s.metrics.transcripts_sent + 1
          finals_sent := s.metrics.finals_sent + 1 } }
        (s, .ok { text := "", is_final := true, duration_ms := (s.config.latency_ms : ℚ) })
      else
        let s := { s with metrics := { s.metrics with
          transcripts_sent := s.metrics.transcripts_sent + 1 } }
        (s, .ok { text := "", is_final := false, duration_ms := (s.config.latency_ms : ℚ) })

/-- Run a list of fallible process_chunk calls; each call continues from the
session the previous call left behind, raising or not. -/
def runChunksF (asr : TranscribeSync) :
    TranscriptionSession → List (ℚ × Audio) →
      TranscriptionSession × List (Except ChunkException TranscriptResult)
  | s, [] => (s, [])
  | s, (now, audio) :: rest =>
    let step := TranscriptionSession.process_chunk_asr asr s now audio
    let r := runChunksF asr step.1 rest
    (r.1, step.2 :: r.2)

/-- A call is accepted when it passes the entry state check, that is, when it
does not raise SessionClosingError — whether or not the ASR later raises. -/
def acceptedCall : Except ChunkException TranscriptResult → Bool
  | .error .sessionClosing => false
  | _ => true

/-- Bytes of the accepted calls in a call/result alignment. -/
def acceptedBytes
    (l : List ((ℚ × Audio) × Except ChunkException TranscriptResult)) : Nat :=
  (l.map fun p => if acceptedCall p.2 then p.1.2.length else 0).sum

/-- Number of accepted calls in a call/result alignment. -/
def acceptedCount
    (l : List ((ℚ × Audio) × Except ChunkException TranscriptResult)) : Nat :=
  l.countP fun p => acceptedCall p.2

/-- An ASR backend whose transcribe_sync raises on every call. -/
def failingAsr : TranscribeSync :=
  fun _ => .error { msg := "transcribe failed" }

/-! ## session_manager.py -/

/-- Configuration for the session manager (session_manager.py, dataclass
SessionManagerConfig).  These are its only fields: there is no
initial_speech_timeout tier. -/
structure SessionManagerConfig where
  max_sessions : Nat := 1000
  idle_timeout_seconds : ℚ := 300
  cleanup_interval_seconds : ℚ := 30
deriving DecidableEq, Repr

/-- SessionLimitExceeded / the ValueError raised by the VADSession constructor
during TranscriptionSession.__init__ (session_manager.py lines 33-36,
vad.py lines 71-72). -/
inductive CreateError
  | sessionLimitExceeded
  | invalidFrameDuration
deriving DecidableEq, Repr

/-- Centralized session registry (session_manager.py, class SessionManager):
the dict mapping session id to session, modelled as an association list. -/
structure SessionManager where
  models : Models
  config : Settings
  manager_config : SessionManagerConfig
  sessions : List (String × TranscriptionSession)

/-- The count computed inside create_session (session_manager.py lines
113-118): sessions whose state is not CLOSING and not CLOSED. -/
def SessionManager.create_active_count (m : SessionManager) : Nat :=
  m.sessions.countP fun p =>
    !(decide (p.2.state = SessionState.CLOSING) || decide (p.2.state = SessionState.CLOSED))

/-- SessionManager.get_active_count (session_manager.py lines 201-207):
sessions whose state is CREATED or ACTIVE. -/
def SessionManager.get_active_count (m : SessionManager) : Nat :=
  m.sessions.countP fun p =>
    decide (p.2.state = SessionState.CREATED) || decide (p.2.state = SessionState.ACTIVE)

/-- SessionManager.create_session (session_manager.py lines 102-130): inside
one lock-protected critical section, count the non-closing sessions, raise
SessionLimitExceeded when the count has reached max_sessions, otherwise build
one new session and insert it.  A raising call returns the registry
unchanged; `fresh_id` stands for the uuid4 produced in
TranscriptionSession.__init__. -/
def SessionManager.create_session (m : SessionManager) (fresh_id : String)
    (now : ℚ) : SessionManager × Except CreateError TranscriptionSession :=
  let active_count := m.create_active_count
  if m.manager_config.max_sessions ≤ active_count then
    (m, .error .sessionLimitExceeded)
  else
    match TranscriptionSession.init m.models m.config fresh_id now with
    | none => (m, .error .invalidFrameDuration)
    | some s => ({ m with sessions := m.sessions ++ [(fresh_id, s)] }, .ok s)

/-- Fold create_session over a list of fresh ids, recording for each call
whether it succeeded or which error it raised. -/
def createMany (m : SessionManager) : List String → SessionManager × List (Except CreateError Unit)
  | [] => (m, [])
  | id :: rest =>
    let r := m.create_session id 0
    let r2 := createMany r.1 rest
    (r2.1, (match r.2 with | .ok _ => .ok () | .error e => .error e) :: r2.2)

/-- The set of session ids the reaper sweep marks for closure
(_cleanup_idle_sessions, session_manager.py lines 176-191): a session is
marked when its state is CLOSED, or when now - last_activity_at exceeds the
single idle_timeout_seconds value, whatever the state. -/
def SessionManager.cleanup_marked (m : SessionManager) (now : ℚ) : List String :=
  (m.sessions.filter fun p =>
    decide (p.2.state = SessionState.CLOSED) ||
      decide (m.manager_config.idle_timeout_seconds < now - p.2.last_activity_at)).map
    Prod.fst

/-! ## Lock-discipline traces for close_session and the reaper

The registry lock discipline (claim C6) is embedded as the sequence of
atomic events each coroutine performs on the registry: acquiring and
releasing `self._lock`, awaiting `session.close()`, and deleting a map
entry.  The traces below transcribe the source order of those events. -/

/-- An atomic event of a registry coroutine. -/
inductive RegistryEvent
  | acquire
  | sessionCloseAwait (id : String)
  | removeEntry (id : String)
  | release
deriving DecidableEq, Repr

/-- Events of SessionManager.close_session(id) (session_manager.py lines
151-168): the whole body runs inside `async with self._lock`, so the
`await session.close()` and the dict deletion happen between the acquire
and the release.  `found` tells whether the id was present. -/
def close_session_events (id : String) (found : Bool) : List RegistryEvent :=
  if found then
    [.acquire, .sessionCloseAwait id, .removeEntry id, .release]
  else
    [.acquire, .release]

/-- Events of SessionManager._cleanup_idle_sessions (session_manager.py lines
176-197): the marked ids are collected inside one `async with self._lock`
block (no close happens there), and afterwards close_session is called for
each marked id.  Each element of `toClose` carries whether the id is still
present when its close_session call runs. -/
def cleanup_events (toClose : List (String × Bool)) : List RegistryEvent :=
  [.acquire, .release] ++
    (toClose.map fun p => close_session_events p.1 p.2).flatten

/-- One event's effect on the lock depth. -/
def depthStep (d : Int) : RegistryEvent → Int
  | .acquire => d + 1
  | .release => d - 1
  | _ => d

/-- Number of lock acquisitions minus releases in a trace. -/
def lockDepth (es : List RegistryEvent) : Int :=
  es.foldl depthStep 0

/-- The registry lock is held while event number `i` of the trace runs. -/
def heldAt (es : List RegistryEvent) (i : Nat) : Bool :=
  decide (0 < lockDepth (es.take i))

/-! ## Concrete fixtures

These mirror the fixtures of the repository's own test suite
(tests/test_session_lifecycle.py, tests/test_session_manager.py):
endpointing_ms = 100, latency_ms = 0, and a 1280-byte all-zero chunk
(40 ms at 16 kHz) whose every frame the VAD classifies as silence. -/

/-- A VAD model whose predicate classifies every frame as silence (the verdict
webrtcvad gives on all-zero PCM). -/
def silentVAD : VADModel :=
  { sample_rate := 16000, pred := fun _ => some false }

/-- Shared models with the all-silence VAD and a trivial ASR backend. -/
def testModels : Models :=
  { vad := silentVAD, asr := fun _ => "" }

/-- The settings the repository's session lifecycle tests use:
Settings(latency_ms=0, endpointing_ms=100). -/
def testSettings : Settings :=
  { latency_ms := 0, endpointing_ms := 100 }

/-- The silence fixture of tests/test_session_lifecycle.py: 1280 zero bytes,
40 ms of audio at 16 kHz 16-bit. -/
def silenceChunk : Audio := List.replicate 1280 0

/-- Create a session and run a list of process_chunk calls on it. -/
def runFromInit (models : Models) (config : Settings) (id : String)
    (calls : List (ℚ × Audio)) :
    Option (TranscriptionSession × List (Except ChunkError TranscriptResult)) :=
  (TranscriptionSession.init models config id 0).map fun s => runChunks s calls

/-! Constructor disequalities used to evaluate the state-machine branches by
simp/norm_num. -/

theorem created_ne_closing : SessionState.CREATED ≠ SessionState.CLOSING := by decide

theorem created_ne_closed : SessionState.CREATED ≠ SessionState.CLOSED := by decide

theorem created_eq_created : SessionState.CREATED = SessionState.CREATED := rfl

theorem active_ne_closing : SessionState.ACTIVE ≠ SessionState.CLOSING := by decide

theorem active_ne_closed : SessionState.ACTIVE ≠ SessionState.CLOSED := by decide

theorem active_ne_created : SessionState.ACTIVE ≠ SessionState.CREATED := by decide

theorem closed_ne_created : SessionState.CLOSED ≠ SessionState.CREATED := by decide

theorem closed_ne_active : SessionState.CLOSED ≠ SessionState.ACTIVE := by decide

/-- is_speech only appends: the updated buffer is the old buffer followed by
the chunk. -/
theorem is_speech_buffer (v : VADSession) (c : Audio) :
    (v.is_speech c).2.buffer = v.buffer ++ c := by
  unfold VADSession.is_speech
  dsimp only
  split <;> rfl

/-- Shape of a successful process_chunk call: the byte and chunk counters
grow by exactly the chunk length and one, and the session ends in ACTIVE. -/
theorem process_chunk_ok_shape {s : TranscriptionSession} {now : ℚ} {audio : Audio}
    {s' : TranscriptionSession} {r : TranscriptResult}
    (h : s.process_chunk now audio = .ok (s', r)) :
    s'.metrics.audio_bytes_received = s.metrics.audio_bytes_received + audio.length ∧
      s'.metrics.audio_chunks_received = s.metrics.audio_chunks_received + 1 ∧
      s'.state = SessionState.ACTIVE := by
  cases hst : s.state with
  | CLOSING => rw [TranscriptionSession.process_chunk, hst] at h; simp at h
  | CLOSED => rw [TranscriptionSession.process_chunk, hst] at h; simp at h
  | CREATED =>
    rw [TranscriptionSession.process_chunk, hst] at h
    simp only [created_ne_closing, created_ne_closed, or_self, ite_false, ite_true,
      if_neg, if_pos, not_false_iff, or_false, false_or] at h
    split at h <;>
      [skip; split at h] <;>
      · injection h with h1
        injection h1 with h2 h3
        subst h2
        simp [TranscriptionSession.resetState, VADSession.reset]
  | ACTIVE =>
    rw [TranscriptionSession.process_chunk, hst] at h
    simp only [active_ne_closing, active_ne_closed, active_ne_created, or_self, ite_false,
      ite_true, not_false_iff, or_false, false_or] at h
    split at h <;>
      [skip; split at h] <;>
      · injection h with h1
        injection h1 with h2 h3
        subst h2
        simp [TranscriptionSession.resetState, VADSession.reset, hst]

/-- process_chunk returns the SessionClosingError exactly when the state at
entry is CLOSING or CLOSED. -/
theorem process_chunk_error_iff (s : TranscriptionSession) (now : ℚ) (audio : Audio) :
    (s.process_chunk now audio = .error .sessionClosing ↔
      (s.state = .CLOSING ∨ s.state = .CLOSED)) := by
  constructor
  · intro h
    by_contra hc
    rw [TranscriptionSession.process_chunk, if_neg hc] at h
    simp only [TranscriptionSession.chunk_duration_ms] at h
    repeat' split at h
    all_goals simp at h
  · intro hc
    simp [TranscriptionSession.process_chunk, hc]

/-- Bytes of the successful calls in a call/result alignment. -/
def okBytes : List ((ℚ × Audio) × Except ChunkError TranscriptResult) → Nat
  | [] => 0
  | (c, .ok _) :: rest => c.2.length + okBytes rest
  | (_, .error _) :: rest => okBytes rest

/-- Number of successful calls in a call/result alignment. -/
def okCount : List ((ℚ × Audio) × Except ChunkError TranscriptResult) → Nat
  | [] => 0
  | (_, .ok _) :: rest => 1 + okCount rest
  | (_, .error _) :: rest => okCount rest

/-- Over any run, the byte and chunk counters grow by exactly the bytes and
number of the calls that did not raise. -/
theorem runChunks_metrics (s : TranscriptionSession) (calls : List (ℚ × Audio)) :
    (runChunks s calls).1.metrics.audio_bytes_received
        = s.metrics.audio_bytes_received + okBytes (calls.zip (runChunks s calls).2) ∧
      (runChunks s calls).1.metrics.audio_chunks_received
        = s.metrics.audio_chunks_received + okCount (calls.zip (runChunks s calls).2) := by
  induction calls generalizing s with
  | nil => simp [runChunks, okBytes, okCount]
  | cons c rest ih =>
    obtain ⟨now, audio⟩ := c
    cases hpc : s.process_chunk now audio with
    | error e =>
      have hih := ih s
      simp only [runChunks, hpc, List.zip_cons_cons, okBytes, okCount]
      omega
    | ok p =>
      obtain ⟨s1, r⟩ := p
      have hsh := process_chunk_ok_shape hpc
      have hih := ih s1
      simp only [runChunks, hpc, List.zip_cons_cons, okBytes, okCount]
      omega

theorem acceptedBytes_cons_true (c : ℚ × Audio) (r : Except ChunkException TranscriptResult)
    (l : List ((ℚ × Audio) × Except ChunkException TranscriptResult))
    (h : acceptedCall r = true) :
    acceptedBytes ((c, r) :: l) = c.2.length + acceptedBytes l := by
  simp [acceptedBytes, h]

theorem acceptedBytes_cons_false (c : ℚ × Audio) (r : Except ChunkException TranscriptResult)
    (l : List ((ℚ × Audio) × Except ChunkException TranscriptResult))
    (h : acceptedCall r = false) :
    acceptedBytes ((c, r) :: l) = acceptedBytes l := by
  simp [acceptedBytes, h]

theorem acceptedCount_cons_true (c : ℚ × Audio) (r : Except ChunkException TranscriptResult)
    (l : List ((ℚ × Audio) × Except ChunkException TranscriptResult))
    (h : acceptedCall r = true) :
    acceptedCount ((c, r) :: l) = 1 + acceptedCount l := by
  simp [acceptedCount, List.countP_cons, h, Nat.add_comm]

theorem acceptedCount_cons_false (c : ℚ × Audio) (r : Except ChunkException TranscriptResult)
    (l : List ((ℚ × Audio) × Except ChunkException TranscriptResult))
    (h : acceptedCall r = false) :
    acceptedCount ((c, r) :: l) = acceptedCount l := by
  simp [acceptedCount, List.countP_cons, h]

/-- Shape of a fallible call: an accepted call — one that passes the entry
state check, whether or not the ASR then raises — grows the byte and chunk
counters by exactly the chunk length and one; a rejected call returns the
session unchanged. -/
theorem process_chunk_asr_shape (asr : TranscribeSync) (s : TranscriptionSession)
    (now : ℚ) (audio : Audio) :
    (acceptedCall (TranscriptionSession.process_chunk_asr asr s now audio).2 = true →
      (TranscriptionSession.process_chunk_asr asr s now audio).1.metrics.audio_bytes_received
          = s.metrics.audio_bytes_received + audio.length ∧
        (TranscriptionSession.process_chunk_asr asr s now audio).1.metrics.audio_chunks_received
          = s.metrics.audio_chunks_received + 1) ∧
    (acceptedCall (TranscriptionSession.process_chunk_asr asr s now audio).2 = false →
      (TranscriptionSession.process_chunk_asr asr s now audio).1 = s) := by
  cases hst : s.state with
  | CLOSING =>
    rw [TranscriptionSession.process_chunk_asr, hst]
    simp [acceptedCall]
  | CLOSED =>
    rw [TranscriptionSession.process_chunk_asr, hst]
    simp [acceptedCall]
  | CREATED =>
    rw [TranscriptionSession.process_chunk_asr, hst]
    simp only [created_ne_closing, created_ne_closed, or_self, ite_false, ite_true,
      if_neg, if_pos, not_false_iff, or_false, false_or]
    split
    · cases hasr : asr audio <;>
        simp [hasr, acceptedCall]
    · split <;>
        simp [acceptedCall, TranscriptionSession.resetState, VADSession.reset]
  | ACTIVE =>
    rw [TranscriptionSession.process_chunk_asr, hst]
    simp only [active_ne_closing, active_ne_closed, active_ne_created, or_self, ite_false,
      ite_true, not_false_iff, or_false, false_or]
    split
    · cases hasr : asr audio <;>
        simp [hasr, acceptedCall]
    · split <;>
        simp [acceptedCall, TranscriptionSession.resetState, VADSession.reset]

/-- Over any fallible run, the byte and chunk counters grow by exactly the
bytes and number of the accepted calls. -/
theorem runChunksF_metrics (asr : TranscribeSync) (s : TranscriptionSession)
    (calls : List (ℚ × Audio)) :
    (runChunksF asr s calls).1.metrics.audio_bytes_received
        = s.metrics.audio_bytes_received
          + acceptedBytes (calls.zip (runChunksF asr s calls).2) ∧
      (runChunksF asr s calls).1.metrics.audio_chunks_received
        = s.metrics.audio_chunks_received
          + acceptedCount (calls.zip (runChunksF asr s calls).2) := by
  induction calls generalizing s with
  | nil => simp [runChunksF, acceptedBytes, acceptedCount]
  | cons c rest ih =>
    obtain ⟨now, audio⟩ := c
    have hsh := process_chunk_asr_shape asr s now audio
    have hih := ih (TranscriptionSession.process_chunk_asr asr s now audio).1
    simp only [runChunksF, List.zip_cons_cons]
    cases hacc : acceptedCall (TranscriptionSession.process_chunk_asr asr s now audio).2 with
    | true =>
      obtain ⟨h1, h2⟩ := hsh.1 hacc
      rw [acceptedBytes_cons_true _ _ _ hacc, acceptedCount_cons_true _ _ _ hacc]
      dsimp only
      omega
    | false =>
      have heq := hsh.2 hacc
      rw [heq] at hih
      rw [acceptedBytes_cons_false _ _ _ hacc, acceptedCount_cons_false _ _ _ hacc, heq]
      omega

/-- On a backend that returns on every call, the fallible pipeline agrees
with process_chunk: the total-ASR model is the restriction of the fallible
one to non-raising backends. -/
theorem process_chunk_asr_agrees (s : TranscriptionSession) (now : ℚ) (audio : Audio)
    (asr : TranscribeSync) (hag : ∀ a, asr a = .ok (s.models.asr a)) :
    (∀ e, s.process_chunk now audio = .error e →
      TranscriptionSession.process_chunk_asr asr s now audio
        = (s, .error .sessionClosing)) ∧
    (∀ s' r, s.process_chunk now audio = .ok (s', r) →
      TranscriptionSession.process_chunk_asr asr s now audio = (s', .ok r)) := by
  constructor
  · intro e he
    have h2 : e = ChunkError.sessionClosing := by cases e; rfl
    subst h2
    have hc := (process_chunk_error_iff s now audio).1 he
    rw [TranscriptionSession.process_chunk_asr, if_pos hc]
  · intro s' r h
    cases hst : s.state with
    | CLOSING => rw [TranscriptionSession.process_chunk, hst] at h; simp at h
    | CLOSED => rw [TranscriptionSession.process_chunk, hst] at h; simp at h
    | CREATED =>
      rw [TranscriptionSession.process_chunk, hst] at h
      rw [TranscriptionSession.process_chunk_asr, hst]
      simp only [created_ne_closing, created_ne_closed, or_self, ite_false, ite_true,
        if_neg, if_pos, not_false_iff, or_false, false_or] at h ⊢
      split at h <;> rename_i hcond
      · rw [if_pos hcond, hag]
        injection h with h1
        injection h1 with h2 h3
        subst h2
        subst h3
        rfl
      · rw [if_neg hcond]
        split at h <;> rename_i hcond2
        · rw [if_pos hcond2]
          injection h with h1
          injection h1 with h2 h3
          subst h2
          subst h3
          rfl
        · rw [if_neg hcond2]
          injection h with h1
          injection h1 with h2 h3
          subst h2
          subst h3
          rfl
    | ACTIVE =>
      rw [TranscriptionSession.process_chunk, hst] at h
      rw [TranscriptionSession.process_chunk_asr, hst]
      simp only [active_ne_closing, active_ne_closed, active_ne_created, or_self, ite_false,
        ite_true, not_false_iff, or_false, false_or] at h ⊢
      split at h <;> rename_i hcond
      · rw [if_pos hcond, hag]
        injection h with h1
        injection h1 with h2 h3
        subst h2
        subst h3
        rfl
      · rw [if_neg hcond]
        split at h <;> rename_i hcond2
        · rw [if_pos hcond2]
          injection h with h1
          injection h1 with h2 h3
          subst h2
          subst h3
          rfl
        · rw [if_neg hcond2]
          injection h with h1
          injection h1 with h2 h3
          subst h2
          subst h3
          rfl

/-! ## Theorems for the claims -/

set_option maxRecDepth 100000 in
/-- C1: the claim states that a session whose every chunk is judged silence
never returns a Result with is_final = true.  The code violates it: a fresh
session fed three 40 ms silence chunks under the test settings
(endpointing_ms = 100) returns is_final = true on the third call, because
process_chunk moves CREATED to ACTIVE on the first chunk whatever the VAD
verdict, and then the accumulated 120 ms of silence crosses the endpointing
threshold. -/
theorem C1_silence_only_run_emits_final :
    (runFromInit testModels testSettings "s1"
        [(1, silenceChunk), (2, silenceChunk), (3, silenceChunk)]).map
        (fun p => p.2.map (Except.map TranscriptResult.is_final))
      = some [.ok false, .ok false, .ok true] := by
  norm_num [runFromInit, TranscriptionSession.init, mkVADSession, testSettings, testModels,
    silentVAD, silenceChunk, runChunks, TranscriptionSession.process_chunk,
    TranscriptionSession.chunk_duration_ms, VADSession.is_speech, VADModel.is_speech,
    TranscriptionSession.resetState, VADSession.reset, Except.map,
    created_ne_closing, created_ne_closed, active_ne_closing, active_ne_closed,
    active_ne_created]

set_option maxRecDepth 100000 in
/-- C2: the claim states that an accepted silence chunk leaves a CREATED
session in CREATED.  The code violates it: after a single silence chunk on a
fresh session the state is ACTIVE, because process_chunk transitions
CREATED to ACTIVE on the first accepted chunk regardless of the VAD
verdict. -/
theorem C2_first_silence_chunk_activates :
    (runFromInit testModels testSettings "s2" [(1, silenceChunk)]).map
        (fun p => p.1.state)
      = some SessionState.ACTIVE := by
  norm_num [runFromInit, TranscriptionSession.init, mkVADSession, testSettings, testModels,
    silentVAD, silenceChunk, runChunks, TranscriptionSession.process_chunk,
    TranscriptionSession.chunk_duration_ms, VADSession.is_speech, VADModel.is_speech,
    TranscriptionSession.resetState, VADSession.reset, Except.map,
    created_ne_closing, created_ne_closed, active_ne_closing, active_ne_closed,
    active_ne_created]

/-- A registry holding one fresh CREATED session (created at time 0) with
idle_timeout_seconds = 2 and the cleanup interval of the repository's
two-tier reaper test (tests/test_session_manager.py lines 192-220). -/
def c3Manager : SessionManager :=
  (({ models := testModels
      config := testSettings
      manager_config :=
        { max_sessions := 10, idle_timeout_seconds := 2, cleanup_interval_seconds := 1/20 }
      sessions := [] } : SessionManager).create_session "c3" 0).1

set_option maxRecDepth 100000 in
/-- C3: the claim states the reaper sweep marks a CREATED session once its
last activity is older than initial_speech_timeout even when idle_timeout has
not elapsed.  The code violates it: SessionManagerConfig has no
initial_speech_timeout field and _cleanup_idle_sessions compares every
session against the single idle_timeout, so at time 1/4 (0.25 s, past the
0.1 s initial_speech_timeout the repository's own tests configure but well
inside idle_timeout = 2 s) the sweep marks nothing although the registry
holds exactly one CREATED session whose last activity was at time 0. -/
theorem C3_single_timeout_tier_misses_created_session :
    c3Manager.cleanup_marked (1/4) = [] ∧
    (c3Manager.sessions.map fun p => p.2.state) = [SessionState.CREATED] ∧
    (c3Manager.sessions.map fun p => p.2.last_activity_at) = [0] ∧
    ((1/10 : ℚ) < 1/4 - 0 ∧ (1/4 : ℚ) - 0 ≤ 2) := by
  refine ⟨?_, ?_, ?_, by norm_num⟩ <;>
    · norm_num [c3Manager, SessionManager.create_session, SessionManager.create_active_count,
        TranscriptionSession.init, mkVADSession, testSettings, testModels, silentVAD,
        SessionManager.cleanup_marked, List.countP, List.countP.go, List.filter,
        created_ne_closing, created_ne_closed, closed_ne_created]

/-- A successfully constructed session starts in CREATED with zeroed metrics,
an empty VAD buffer, and a zero silence counter. -/
theorem init_shape {models : Models} {config : Settings} {session_id : String}
    {now : ℚ} {s : TranscriptionSession}
    (h : TranscriptionSession.init models config session_id now = some s) :
    s.state = .CREATED ∧ s.metrics = {} ∧ s.vad_session.buffer = [] ∧
      s.silence_duration_ms = 0 ∧ s.speech_buffer_bytes = 0 := by
  unfold TranscriptionSession.init mkVADSession at h
  split at h
  · simp only [Option.map] at h
    injection h with h2
    subst h2
    exact ⟨rfl, rfl, rfl, rfl, rfl⟩
  · simp at h

/-- A registry with max_sessions = 3 and no sessions, the scenario of ten
concurrent create calls (serialized by the registry lock). -/
def limit3Manager : SessionManager :=
  { models := testModels
    config := testSettings
    manager_config :=
      { max_sessions := 3, idle_timeout_seconds := 300, cleanup_interval_seconds := 30 }
    sessions := [] }

set_option maxRecDepth 100000 in
/-- C4: create_session checks the count of CREATED/ACTIVE sessions against
max_sessions inside one lock-protected critical section: at the limit it
raises SessionLimitExceeded leaving the registry unchanged; below the limit
it inserts exactly one new session; the count it checks equals the count of
sessions in CREATED or ACTIVE; admission preserves active_count ≤
max_sessions; and ten serialized create calls against max_sessions = 3 give
exactly three successes followed by seven SessionLimitExceeded errors. -/
theorem C4_admission_cap (m : SessionManager) (id : String) (now : ℚ) :
    (m.manager_config.max_sessions ≤ m.create_active_count →
      m.create_session id now = (m, .error .sessionLimitExceeded)) ∧
    (m.create_active_count < m.manager_config.max_sessions →
      ∀ s, (m.create_session id now).2 = .ok s →
        (m.create_session id now).1.sessions = m.sessions ++ [(id, s)]) ∧
    (m.create_active_count ≤ m.manager_config.max_sessions →
      (m.create_session id now).1.create_active_count ≤ m.manager_config.max_sessions) ∧
    m.create_active_count = m.get_active_count ∧
    (createMany limit3Manager
        ["u1", "u2", "u3", "u4", "u5", "u6", "u7", "u8", "u9", "u10"]).2 =
      [.ok (), .ok (), .ok (),
        .error .sessionLimitExceeded, .error .sessionLimitExceeded,
        .error .sessionLimitExceeded, .error .sessionLimitExceeded,
        .error .sessionLimitExceeded, .error .sessionLimitExceeded,
        .error .sessionLimitExceeded] := by
  refine ⟨?_, ?_, ?_, ?_, rfl⟩
  · intro h
    simp [SessionManager.create_session, h]
  · intro h s hs
    simp only [SessionManager.create_session, if_neg (not_le.mpr h)] at hs ⊢
    cases hinit : TranscriptionSession.init m.models m.config id now with
    | none => simp [hinit] at hs
    | some s0 =>
      simp only [hinit] at hs ⊢
      cases hs
      rfl
  · intro h
    simp only [SessionManager.create_session]
    split
    · exact h
    · cases hinit : TranscriptionSession.init m.models m.config id now with
      | none => simpa [hinit] using h
      | some s0 =>
        have hst := (init_shape hinit).1
        have hlt : m.create_active_count < m.manager_config.max_sessions := by omega
        simp only [hinit, SessionManager.create_active_count, List.countP_append]
        simp [SessionManager.create_active_count, List.countP_cons, hst,
          created_ne_closing, created_ne_closed] at *
        omega
  · unfold SessionManager.create_active_count SessionManager.get_active_count
    refine List.countP_congr ?_
    intro p _
    cases hst : p.2.state <;> simp [hst]

/-- A full registry: the result of the three successful creates of the
limit-3 scenario. -/
def limit3Full : SessionManager :=
  (createMany limit3Manager ["u1", "u2", "u3"]).1

/-- Witness for C4 at a concrete full registry: the fourth create raises
SessionLimitExceeded and returns the registry unchanged. -/
theorem C4_admission_cap_witness :
    limit3Full.create_session "u4" 0 = (limit3Full, .error .sessionLimitExceeded) :=
  (C4_admission_cap limit3Full "u4" 0).1 (by decide)

/-- The standard fresh session of the concrete witnesses: what
TranscriptionSession.init builds from the test fixtures. -/
def freshSession : TranscriptionSession :=
  { models := testModels
    config := testSettings
    session_id := "w0"
    state := .CREATED
    created_at := 0
    last_activity_at := 0
    metrics := {}
    vad_session :=
      { model := silentVAD, frame_duration_ms := 20, frame_size_bytes := 640, buffer := [] }
    speech_buffer_bytes := 0
    silence_duration_ms := 0 }

/-- C5 counterexample: the claim says the counters equal the byte sum and the
count over exactly the process_chunk calls that did not raise.  On the
pipeline with the ASR error path explicit this fails: a single sub-frame
chunk on a fresh session is gated as speech, the backend raises, and the call
raises TranscribeError — yet audio_bytes_received and audio_chunks_received
are both 1, because session.py increments them (lines 133-134) before the ASR
call (line 148).  Every call of this run raised, so the claim demands both
counters be 0. -/
theorem C5_raising_call_still_counts :
    (runChunksF failingAsr freshSession [(1, [0])]).2
        = [.error (.transcribe { msg := "transcribe failed" })] ∧
    (runChunksF failingAsr freshSession [(1, [0])]).1.metrics.audio_bytes_received = 1 ∧
    (runChunksF failingAsr freshSession [(1, [0])]).1.metrics.audio_chunks_received = 1 := by
  norm_num [runChunksF, TranscriptionSession.process_chunk_asr, failingAsr, freshSession,
    testModels, testSettings, silentVAD, TranscriptionSession.chunk_duration_ms,
    VADSession.is_speech, VADModel.is_speech, TranscriptionSession.resetState,
    VADSession.reset, created_ne_closing, created_ne_closed, active_ne_closing,
    active_ne_closed, active_ne_created]

/-- C5 amended: over the pipeline with the ASR error path explicit, after any
run from a fresh session audio_bytes_received equals the sum of len(chunk)
over exactly the accepted calls — those that did not raise
SessionClosingError — and audio_chunks_received equals their count; a call
that raises TranscribeError from the ASR backend has already incremented both
counters and therefore still counts.  On any session both counters never
decrease over a run. -/
theorem C5_accepted_metric_consistency (models : Models) (config : Settings)
    (id : String) (t0 : ℚ) (s0 : TranscriptionSession) (asr : TranscribeSync)
    (calls : List (ℚ × Audio))
    (h0 : TranscriptionSession.init models config id t0 = some s0) :
    ((runChunksF asr s0 calls).1.metrics.audio_bytes_received
        = acceptedBytes (calls.zip (runChunksF asr s0 calls).2) ∧
      (runChunksF asr s0 calls).1.metrics.audio_chunks_received
        = acceptedCount (calls.zip (runChunksF asr s0 calls).2)) ∧
    (∀ s : TranscriptionSession,
      s.metrics.audio_bytes_received
          ≤ (runChunksF asr s calls).1.metrics.audio_bytes_received ∧
      s.metrics.audio_chunks_received
          ≤ (runChunksF asr s calls).1.metrics.audio_chunks_received) := by
  constructor
  · have h := runChunksF_metrics asr s0 calls
    have hm := (init_shape h0).2.1
    rw [hm] at h
    simpa using h
  · intro s
    have h := runChunksF_metrics asr s calls
    omega

/-- Witness for C5's amended statement at a concrete fresh session with a
raising backend: the byte counter equals the accepted byte sum. -/
theorem C5_accepted_metric_consistency_witness :
    (runChunksF failingAsr freshSession
        [((1 : ℚ), ([0] : Audio))]).1.metrics.audio_bytes_received
      = acceptedBytes ([((1 : ℚ), ([0] : Audio))].zip
          (runChunksF failingAsr freshSession [((1 : ℚ), ([0] : Audio))]).2) :=
  ((C5_accepted_metric_consistency testModels testSettings "w0" 0 freshSession
    failingAsr [((1 : ℚ), ([0] : Audio))] rfl).1).1

/-- C7: process_chunk raises SessionClosingError exactly when the session
state at entry is CLOSING or CLOSED, that is the only error it raises, and a
rejected call contributes no state change to a run. -/
theorem C7_closing_rejection (s : TranscriptionSession) (now : ℚ) (audio : Audio) :
    (s.process_chunk now audio = .error .sessionClosing ↔
      (s.state = .CLOSING ∨ s.state = .CLOSED)) ∧
    (∀ e, s.process_chunk now audio = .error e → e = .sessionClosing) ∧
    ((s.state = .CLOSING ∨ s.state = .CLOSED) →
      runChunks s [(now, audio)] = (s, [.error .sessionClosing])) := by
  refine ⟨process_chunk_error_iff s now audio, ?_, ?_⟩
  · intro e _
    cases e
    rfl
  · intro hc
    have h := (process_chunk_error_iff s now audio).2 hc
    simp [runChunks, h]

/-- A concrete session in the CLOSED state. -/
def closedSession : TranscriptionSession :=
  { freshSession with session_id := "w7", state := .CLOSED }

/-- Witness for C7: a call on a concrete CLOSED session raises and leaves the
session untouched. -/
theorem C7_closing_rejection_witness :
    runChunks closedSession [(0, [])] = (closedSession, [.error .sessionClosing]) :=
  (C7_closing_rejection closedSession 0 []).2.2 (Or.inr rfl)

/-- C8: is_speech appends the chunk to the per-session buffer and returns
true when the buffer is shorter than one frame; otherwise it returns the
shared predicate's verdict on the most recent frame-sized suffix of the
buffer, and true whenever the predicate raises; the constructor derives the
frame size in bytes as sample_rate × frame_duration_ms / 1000 × 2. -/
theorem C8_frame_gate (v : VADSession) (chunk : Audio) (m : VADModel) (d : Nat)
    (v0 : VADSession) (hmk : mkVADSession m d = some v0) :
    ((v.is_speech chunk).2.buffer = v.buffer ++ chunk) ∧
    ((v.buffer ++ chunk).length < v.frame_size_bytes → (v.is_speech chunk).1 = true) ∧
    (v.frame_size_bytes ≤ (v.buffer ++ chunk).length →
      ∃ frame, List.IsSuffix frame (v.buffer ++ chunk) ∧
        frame.length = v.frame_size_bytes ∧
        (v.is_speech chunk).1 = (v.model.pred frame).getD true ∧
        (v.model.pred frame = none → (v.is_speech chunk).1 = true)) ∧
    (v0.frame_size_bytes = m.sample_rate * d / 1000 * 2 ∧ v0.buffer = []) := by
  refine ⟨is_speech_buffer v chunk, ?_, ?_, ?_⟩
  · intro h
    unfold VADSession.is_speech
    dsimp only
    rw [if_pos h]
  · intro h
    refine ⟨(v.buffer ++ chunk).drop ((v.buffer ++ chunk).length - v.frame_size_bytes),
      List.drop_suffix _ _, ?_, ?_, ?_⟩
    · rw [List.length_drop]
      omega
    · unfold VADSession.is_speech VADModel.is_speech
      dsimp only
      rw [if_neg (not_lt.mpr h)]
    · intro hn
      unfold VADSession.is_speech VADModel.is_speech
      dsimp only
      rw [if_neg (not_lt.mpr h), hn]
      rfl
  · unfold mkVADSession at hmk
    split at hmk
    · injection hmk with h2
      subst h2
      exact ⟨rfl, rfl⟩
    · simp at hmk

/-- Witness for C8 at a concrete frame gate: a sub-frame chunk on an empty
buffer is assumed to be speech, and the constructor facts hold for the test
frame gate. -/
theorem C8_frame_gate_witness :
    (freshSession.vad_session.is_speech [0]).1 = true :=
  (C8_frame_gate freshSession.vad_session [0] silentVAD 20 freshSession.vad_session
    rfl).2.1 (by decide)

/-- Invariant of sequential session runs: a session never rests in CLOSING
(close passes through it atomically), and once CLOSED the frame-gate buffer,
the silence counter and the speech byte counter are reset. -/
def SessionInv (s : TranscriptionSession) : Prop :=
  s.state ≠ SessionState.CLOSING ∧
    (s.state = SessionState.CLOSED →
      s.vad_session.buffer = [] ∧ s.silence_duration_ms = 0 ∧ s.speech_buffer_bytes = 0)

/-- Shape of close: a no-op from CLOSING/CLOSED, otherwise it ends CLOSED with
the frame gate and the silence counter reset and the metrics untouched. -/
theorem close_shape (s : TranscriptionSession) :
    ((s.state = .CLOSING ∨ s.state = .CLOSED) → s.close = s) ∧
    (¬(s.state = .CLOSING ∨ s.state = .CLOSED) →
      s.close.state = .CLOSED ∧ s.close.vad_session.buffer = [] ∧
        s.close.silence_duration_ms = 0 ∧ s.close.speech_buffer_bytes = 0 ∧
        s.close.metrics = s.metrics) := by
  constructor
  · intro h
    unfold TranscriptionSession.close
    rw [if_pos h]
  · intro h
    unfold TranscriptionSession.close
    rw [if_neg h]
    exact ⟨rfl, rfl, rfl, rfl, rfl⟩

/-- The run invariant is preserved by every session operation. -/
theorem applyOp_inv {s : TranscriptionSession} (h : SessionInv s) (op : SessionOp) :
    SessionInv (applyOp s op) := by
  cases op with
  | chunk now audio =>
    cases hpc : s.process_chunk now audio with
    | error e => simpa only [applyOp, hpc] using h
    | ok p =>
      obtain ⟨s1, r⟩ := p
      have hsh := (process_chunk_ok_shape hpc).2.2
      simp only [applyOp, hpc]
      exact ⟨by rw [hsh]; decide, by intro hc; rw [hsh] at hc; cases hc⟩
  | closeOp =>
    simp only [applyOp]
    by_cases hc : s.state = .CLOSING ∨ s.state = .CLOSED
    · rw [(close_shape s).1 hc]
      exact h
    · obtain ⟨h1, h2, h3, h4, _⟩ := (close_shape s).2 hc
      exact ⟨by rw [h1]; decide, fun _ => ⟨h2, h3, h4⟩⟩

/-- The run invariant holds after any sequence of operations. -/
theorem runOps_inv {s0 : TranscriptionSession} (hinv : SessionInv s0)
    (ops : List SessionOp) : SessionInv (runOps s0 ops) := by
  induction ops generalizing s0 with
  | nil => exact hinv
  | cons op rest ih =>
    simp only [runOps, List.foldl_cons]
    exact ih (applyOp_inv hinv op)

set_option maxRecDepth 100000 in
/-- C9: on any session reachable by a run from a fresh session, close() ends
the session in CLOSED with the frame gate and the silence counter reset,
further close() calls change nothing, and a close() on a session already in
CLOSING or CLOSED returns it unchanged.  In the embedding close is a total
function, so it never raises. -/
theorem C9_idempotent_close (models : Models) (config : Settings) (id : String)
    (t0 : ℚ) (s0 : TranscriptionSession) (ops : List SessionOp)
    (h0 : TranscriptionSession.init models config id t0 = some s0) :
    ((runOps s0 ops).close.state = SessionState.CLOSED ∧
      (runOps s0 ops).close.vad_session.buffer = [] ∧
      (runOps s0 ops).close.silence_duration_ms = 0 ∧
      (runOps s0 ops).close.speech_buffer_bytes = 0) ∧
    (runOps s0 ops).close.close = (runOps s0 ops).close ∧
    (((runOps s0 ops).state = SessionState.CLOSING ∨
        (runOps s0 ops).state = SessionState.CLOSED) →
      (runOps s0 ops).close = runOps s0 ops) := by
  have hinv0 : SessionInv s0 := by
    obtain ⟨hst, _, hbuf, hsil, hspb⟩ := init_shape h0
    exact ⟨by rw [hst]; decide, by intro hc; rw [hst] at hc; cases hc⟩
  have hinv := runOps_inv hinv0 ops
  have hmain : (runOps s0 ops).close.state = SessionState.CLOSED ∧
      (runOps s0 ops).close.vad_session.buffer = [] ∧
      (runOps s0 ops).close.silence_duration_ms = 0 ∧
      (runOps s0 ops).close.speech_buffer_bytes = 0 := by
    by_cases hc : (runOps s0 ops).state = .CLOSING ∨ (runOps s0 ops).state = .CLOSED
    · have heq := (close_shape (runOps s0 ops)).1 hc
      rw [heq]
      rcases hc with hc | hc
      · exact absurd hc hinv.1
      · obtain ⟨hb, hs, hp⟩ := hinv.2 hc
        exact ⟨hc, hb, hs, hp⟩
    · obtain ⟨h1, h2, h3, h4, _⟩ := (close_shape (runOps s0 ops)).2 hc
      exact ⟨h1, h2, h3, h4⟩
  refine ⟨hmain, ?_, ?_⟩
  · exact (close_shape (runOps s0 ops).close).1 (Or.inr hmain.1)
  · exact (close_shape (runOps s0 ops)).1

/-- Witness for C9: closing a concrete fresh session twice ends in CLOSED. -/
theorem C9_idempotent_close_witness :
    (runOps freshSession [SessionOp.closeOp]).close.state = SessionState.CLOSED :=
  ((C9_idempotent_close testModels testSettings "w0" 0 freshSession
    [SessionOp.closeOp] rfl).1).1

/-- Iterated is_speech calls on a frame gate. -/
def feedChunks (v : VADSession) (chunks : List Audio) : VADSession :=
  chunks.foldl (fun v c => (v.is_speech c).2) v

/-- C10: between resets, is_speech never removes bytes: after any sequence of
is_speech calls the buffer is the original buffer followed by the
concatenation of every chunk fed since, so from a reset (empty) buffer it is
exactly the concatenation of the chunks; reset — called by the session's
_reset on finalization and close — empties it. -/
theorem C10_buffer_accumulates (v : VADSession) (chunks : List Audio)
    (s : TranscriptionSession) :
    (feedChunks v chunks).buffer = v.buffer ++ chunks.flatten ∧
    (feedChunks v.reset chunks).buffer = chunks.flatten ∧
    (feedChunks v chunks).buffer.length = v.buffer.length + (chunks.map List.length).sum ∧
    v.reset.buffer = [] ∧
    s.resetState.vad_session.buffer = [] := by
  have key : ∀ w : VADSession, (feedChunks w chunks).buffer = w.buffer ++ chunks.flatten := by
    induction chunks with
    | nil =>
      intro w
      simp [feedChunks]
    | cons c rest ih =>
      intro w
      simp only [feedChunks, List.foldl_cons] at ih ⊢
      rw [ih ((w.is_speech c).2), is_speech_buffer, List.flatten_cons, List.append_assoc]
  refine ⟨key v, ?_, ?_, rfl, rfl⟩
  · rw [key v.reset]
    rfl
  · rw [key v]
    simp [List.length_flatten]

/-- C6 as the specification states it would require the lock to be free at
the moment close_session awaits session.close(); in the trace of the source
the await (event 1) happens strictly inside the critical section: the lock is
held there.  This closed evaluation refutes the claim at the concrete
session id "s". -/
theorem C6_close_releases_lock_counterexample :
    (close_session_events "s" true).get? 1 = some (.sessionCloseAwait "s") ∧
    heldAt (close_session_events "s" true) 1 = true := by
  constructor <;> rfl

/-- Lock depth is additive over trace concatenation. -/
theorem lockDepth_append (es fs : List RegistryEvent) :
    lockDepth (es ++ fs) = lockDepth es + lockDepth fs := by
  have gen : ∀ (gs : List RegistryEvent) (d : Int), gs.foldl depthStep d = d + lockDepth gs := by
    intro gs
    induction gs with
    | nil => intro d; simp [lockDepth]
    | cons e rest ih =>
      intro d
      simp only [lockDepth, List.foldl_cons] at ih ⊢
      rw [ih, ih (depthStep 0 e)]
      cases e <;> simp [depthStep] <;> ring
  unfold lockDepth
  rw [List.foldl_append, gen fs (List.foldl depthStep 0 es), gen es 0]
  simp [lockDepth]

/-- Every sessionCloseAwait event of a trace runs while the lock is held. -/
def ClosesHeld (es : List RegistryEvent) : Prop :=
  ∀ i j, es.get? i = some (.sessionCloseAwait j) → 0 < lockDepth (es.take i)

/-- ClosesHeld is preserved by concatenation of lock-balanced traces. -/
theorem closesHeld_append {es fs : List RegistryEvent} (h1 : ClosesHeld es)
    (h2 : ClosesHeld fs) (hbal : lockDepth es = 0) : ClosesHeld (es ++ fs) := by
  intro i j h
  rcases lt_or_ge i es.length with hi | hi
  · rw [List.get?_append hi] at h
    have := h1 i j h
    rw [List.take_append_eq_append_take, Nat.sub_eq_zero_of_le (le_of_lt hi),
      List.take_zero, List.append_nil]
    exact this
  · rw [List.get?_append_right hi] at h
    have := h2 _ _ h
    rw [List.take_append_eq_append_take, List.take_of_length_le hi, lockDepth_append,
      hbal, zero_add]
    exact this

/-- The close_session trace is lock-balanced and its close event runs under
the lock. -/
theorem close_session_events_held (id : String) (found : Bool) :
    ClosesHeld (close_session_events id found) ∧
      lockDepth (close_session_events id found) = 0 := by
  cases found <;>
    · constructor
      · intro i j h
        rcases i with _ | _ | _ | _ | i <;>
          simp_all [close_session_events, lockDepth, depthStep, List.take]
      · rfl

/-- The flattened closes of a reaper sweep keep every close under the lock
and leave the lock balanced. -/
theorem cleanup_blocks_held (toClose : List (String × Bool)) :
    ClosesHeld ((toClose.map fun p => close_session_events p.1 p.2).flatten) ∧
      lockDepth ((toClose.map fun p => close_session_events p.1 p.2).flatten) = 0 := by
  induction toClose with
  | nil =>
    constructor
    · intro i j h
      simp [List.get?] at h
    · rfl
  | cons p rest ih =>
    simp only [List.map_cons, List.flatten_cons]
    have hp := close_session_events_held p.1 p.2
    exact ⟨closesHeld_append hp.1 ih.1 hp.2, by rw [lockDepth_append, hp.2, ih.2, zero_add]⟩

/-- C6 amended: close_session performs the await of session.close() while
holding the registry lock (the source's whole body is one `async with
self._lock` block); the reaper collects under the lock, releases it (its
collection critical section is events 0 and 1), and every close it then
performs through close_session again happens under the lock, which ends
balanced. -/
theorem C6_amended_lock_discipline (id : String) (found : Bool)
    (toClose : List (String × Bool)) :
    (∀ i j, (close_session_events id found).get? i = some (.sessionCloseAwait j) →
      heldAt (close_session_events id found) i = true) ∧
    ((cleanup_events toClose).get? 0 = some .acquire ∧
      (cleanup_events toClose).get? 1 = some .release) ∧
    (∀ i j, (cleanup_events toClose).get? i = some (.sessionCloseAwait j) →
      heldAt (cleanup_events toClose) i = true ∧ 2 ≤ i) ∧
    lockDepth (cleanup_events toClose) = 0 := by
  have hblocks := cleanup_blocks_held toClose
  have hcleanup : ClosesHeld (cleanup_events toClose) := by
    unfold cleanup_events
    refine closesHeld_append ?_ hblocks.1 rfl
    intro i j h
    rcases i with _ | _ | i <;> simp [List.get?] at h
  refine ⟨?_, ⟨rfl, rfl⟩, ?_, ?_⟩
  · intro i j h
    have := (close_session_events_held id found).1 i j h
    unfold heldAt
    exact decide_eq_true this
  · intro i j h
    refine ⟨decide_eq_true (hcleanup i j h), ?_⟩
    rcases i with _ | _ | i
    · simp [cleanup_events, List.get?] at h
    · simp [cleanup_events, List.get?] at h
    · omega
  · unfold cleanup_events
    rw [lockDepth_append, hblocks.2]
    rfl

/-- Witness for C6's amended statement: in the sweep that closes the single
session "s", the close happens at event 3, under the lock and after the
collection phase. -/
theorem C6_amended_lock_discipline_witness :
    heldAt (cleanup_events [("s", true)]) 3 = true ∧ 2 ≤ 3 :=
  (C6_amended_lock_discipline "s" true [("s", true)]).2.2.1 3 "s" rfl

end VoiceToText
